import Mathlib

/-!
Verification of the discography web application (`app.py`).

The route handlers are embedded shallowly: each Flask handler becomes a pure
Lean function from the durable database state and the request's form/URL
fields to a handler result (a redirect carrying a result code, a rendered
template, or an unhandled Python exception) together with the durable
database state after the request (the state after `con.commit()`, or the
original state when the handler returns without committing — sqlite3 rolls
an uncommitted transaction back when the per-request connection is closed
at teardown).

The SQL schema (`discography.db`) is not part of the sources; the table
shapes, uniqueness constraints and foreign keys are modelled from the spec
(§3, §6): `cds`, `songs`, `artists`, `concerts` have unique ids;
`tracks.song_id` and `performances.song_id` reference `songs`;
`tracks_artists` references `tracks` and `artists`;
`artists_performances` references `performances` and `artists`; foreign
keys are enforced on every connection (`PRAGMA foreign_keys = ON` in
`get_db`), with no ON DELETE action, so deleting a referenced row raises
`sqlite3.IntegrityError`.
-/

namespace DbApp

/-- Models Python `unicodedata.category(c) == 'Cc'`: the Unicode control
characters are exactly U+0000..U+001F and U+007F..U+009F. -/
def isControlChar (c : Char) : Bool :=
  c.toNat ≤ 0x1f || (0x7f ≤ c.toNat && c.toNat ≤ 0x9f)

/-- Embeds `has_control_character` from `app.py`: true iff some character
of `s` is in Unicode category Cc. -/
def has_control_character (s : String) : Bool :=
  s.data.any isControlChar

/-- Accumulates the value of a list of ASCII digits, most significant first. -/
def digitsToNat : List Char → Nat → Nat
  | [], acc => acc
  | c :: cs, acc => digitsToNat cs (acc * 10 + (c.toNat - 48))

/-- All characters are ASCII digits. -/
def allDigits (l : List Char) : Bool :=
  l.all (·.isDigit)

/-- Models Python `int(s)` on the inputs this application receives:
optional surrounding whitespace, an optional single sign, then one or more
ASCII digits; `none` models the raised `ValueError`. -/
def pyInt (s : String) : Option Int :=
  let t := ((s.data.dropWhile Char.isWhitespace).reverse.dropWhile
      Char.isWhitespace).reverse
  match t with
  | [] => none
  | c :: rest =>
    if c = '-' then
      if !rest.isEmpty && allDigits rest then
        some (-(digitsToNat rest 0 : Int))
      else none
    else if c = '+' then
      if !rest.isEmpty && allDigits rest then
        some ((digitsToNat rest 0 : Int))
      else none
    else if allDigits (c :: rest) then
      some ((digitsToNat (c :: rest) 0 : Int))
    else none

/-- Models sqlite's type affinity when a text parameter is compared with an
INTEGER column: the text is converted to an integer when it is a
well-formed integer literal, and the comparison is numeric. -/
def strMatchesInt (s : String) (n : Int) : Bool :=
  pyInt s == some n

/-- One sqlite column value: the tables are not STRICT, so a column can
hold an integer, a text, or NULL. -/
inductive SqlVal where
  | intV : Int → SqlVal
  | strV : String → SqlVal
  | nullV : SqlVal
deriving DecidableEq, Repr

/-- Row of the `cds` table. `id` is inserted as the raw form string by
`cd_add_execute`. -/
structure CDRow where
  id : String
  title : String
  series_name : String
  order_in_series : SqlVal
  issued_date : String
deriving DecidableEq, Repr

/-- Row of the `songs` table. -/
structure SongRow where
  id : Int
  title : String
deriving DecidableEq, Repr

/-- Row of the `artists` table. -/
structure ArtistRow where
  id : Int
  name : String
  group_name : String
deriving DecidableEq, Repr

/-- Row of the `concerts` table. -/
structure ConcertRow where
  id : Int
  title : String
  held_date : String
deriving DecidableEq, Repr

/-- Row of the `tracks` table; `cd_id` is stored as given by the URL. -/
structure TrackRow where
  cd_id : String
  track_number : Int
  song_id : Int
deriving DecidableEq, Repr

/-- Row of the `tracks_artists` association table. -/
structure TrackArtistRow where
  cd_id : String
  track_number : Int
  artist_id : Int
deriving DecidableEq, Repr

/-- Row of the `performances` table. -/
structure PerformanceRow where
  concert_id : Int
  number_of_order : Int
  song_id : Int
deriving DecidableEq, Repr

/-- Row of the `artists_performances` association table. -/
structure ArtistPerformanceRow where
  concert_id : Int
  order_in_concert : Int
  artist_id : Int
deriving DecidableEq, Repr

/-- The durable state of `discography.db`: the eight tables of the spec. -/
structure DB where
  cds : List CDRow
  songs : List SongRow
  artists : List ArtistRow
  concerts : List ConcertRow
  tracks : List TrackRow
  tracks_artists : List TrackArtistRow
  performances : List PerformanceRow
  artists_performances : List ArtistPerformanceRow
deriving DecidableEq, Repr

/-- What a route handler produces: a PRG redirect to a results route with a
result code, a directly rendered template (with the message passed as
`results`, or no message), or an unhandled Python exception escaping to the
framework's generic error page. -/
inductive HResult where
  | redirect : String → String → HResult
  | render : String → String → HResult
  | page : String → HResult
  | pyError : String → HResult
deriving DecidableEq, Repr

/-- Embeds `RESULT_MESSAGES` from `app.py`: the static result-code
catalog, in source order (keys are pairwise distinct, as in a Python dict
literal without duplicate keys). -/
def RESULT_MESSAGES : List (String × String) :=
  [("id-has-invalid-charactor",
    "指定された情報には使えない文字があります - IDは数字のみで指定してください"),
   ("include-invalid-charactor",
    "指定された情報には使えない文字があります - "),
   ("id-already-exists",
    "指定されたIDのデータは既に存在します - 存在しないIDを指定してください"),
   ("include-control-charactor",
    "制御文字は指定しないでください"),
   ("database-error",
    "データベースエラー"),
   ("deleted",
    "削除しました"),
   ("updated",
    "更新しました"),
   ("unchanged",
    "変更はありません"),
   ("debug",
    "debug"),
   ("series-number-has-invalid-charactor",
    "指定された情報には使えない文字があります - シリーズ通し番号は数字のみで指定してください"),
   ("track-number-has-invalid-charactor",
    "指定された情報には使えない文字があります - トラック番号は数字のみで指定してください"),
   ("track-added",
    "トラックが追加されました"),
   ("cd-added",
    "CDを追加しました"),
   ("song-id-has-invalid-charactor",
    "指定された情報には使えない文字があります - 楽曲IDは数字のみで指定してください"),
   ("song-does-not-exist",
    "指定された楽曲は存在しません"),
   ("song-added",
    "楽曲を追加しました"),
   ("artist-id-has-invalid-charactor",
    "指定された情報には使えない文字があります - アーティストIDは数字のみで指定してください"),
   ("artist-does-not-exist",
    "指定されたアーティストは存在しません"),
   ("artist-added",
    "アーティストを追加しました"),
   ("number-of-order-has-invalid-charactor",
    "指定された情報には使えない文字があります - セットリスト番号は数字のみで指定してください"),
   ("concert-added",
    "コンサートを追加しました"),
   ("setlist-added",
    "セットリストに追加されました"),
   ("track-artist-already-exists",
    "指定されたアーティストはすでに登録済みです"),
   ("add-artist-from-tracks-edit-page",
    "すでに登録済みのトラック番号が入力されました - セットリストへのアーティストの追加は編集画面から実行してください"),
   ("performance-artist-already-exists",
    "指定されたアーティストはすでに登録済みです"),
   ("add-artist-from-selist-edit-page",
    "すでに登録済みのセットリスト番号が入力されました - セットリストへのアーティストの追加は編集画面から実行してください")]

/-- Embeds `RESULT_MESSAGES.get(code, 'code error')`, the lookup every
results route performs. -/
def resultsMessage (code : String) : String :=
  (RESULT_MESSAGES.lookup code).getD "code error"

/-- Embeds the `cd_add_results` route: renders the catalog message. -/
def cd_add_results (code : String) : HResult :=
  .render "cd-add-results.html" (resultsMessage code)

/-- Embeds the `cd_del_results` route. -/
def cd_del_results (code : String) : HResult :=
  .render "cd-del-results.html" (resultsMessage code)

/-- Embeds the `cd_edit_results` route. -/
def cd_edit_results (code : String) : HResult :=
  .render "cd-edit-results.html" (resultsMessage code)

/-- Embeds the `song_add_results` route. -/
def song_add_results (code : String) : HResult :=
  .render "song-add-results.html" (resultsMessage code)

/-- Embeds the `song_del_results` route. -/
def song_del_results (code : String) : HResult :=
  .render "song-del-results.html" (resultsMessage code)

/-- Embeds the `song_edit_results` route. -/
def song_edit_results (code : String) : HResult :=
  .render "song-edit-results.html" (resultsMessage code)

/-- Embeds the `artist_add_results` route. -/
def artist_add_results (code : String) : HResult :=
  .render "artist-add-results.html" (resultsMessage code)

/-- Embeds the `concert_add_results` route. -/
def concert_add_results (code : String) : HResult :=
  .render "concert-add-results.html" (resultsMessage code)

/-- Embeds the `concert_del_results` route. -/
def concert_del_results (code : String) : HResult :=
  .render "concert-del-results.html" (resultsMessage code)

/-- Embeds the `setlist_edit_results` route. -/
def setlist_edit_results (code : String) : HResult :=
  .render "setlist-edit-results.html" (resultsMessage code)

/-- Embeds `cd_add_execute` (POST `/cd-add`).  Checks, in source order:
control characters in `title`, in `id`, in `series_name` (only when
non-empty); integer coercion of `order_in_series` (only when non-empty);
control characters in `issued_date`; then one INSERT.  There is no
duplicate-id pre-check: the INSERT violates the `cds.id` uniqueness
constraint when a row with the same id exists, `sqlite3.Error` is caught
and the handler redirects with `database-error` without committing. -/
def cd_add_execute (db : DB)
    (title id series_name order_in_series issued_date : String) :
    HResult × DB :=
  if has_control_character title then
    (.redirect "cd_add_results" "include-control-charactor", db)
  else if has_control_character id then
    (.redirect "cd_add_results" "include-control-charactor", db)
  else if series_name ≠ "" && has_control_character series_name then
    (.redirect "cd_add_results" "include-control-charactor", db)
  else
    -- `order_in_series` keeps the empty string when blank; otherwise it is
    -- converted to an integer (ValueError redirects).
    let orderVal? : Option SqlVal :=
      if order_in_series = "" then some (.strV "")
      else (pyInt order_in_series).map .intV
    match orderVal? with
    | none =>
      (.redirect "cd_add_results" "series-number-has-invalid-charactor", db)
    | some orderVal =>
      if has_control_character issued_date then
        (.redirect "cd_add_results" "include-control-charactor", db)
      else if db.cds.any (fun r => r.id == id) then
        -- INSERT raises sqlite3.IntegrityError (duplicate primary key)
        (.redirect "cd_add_results" "database-error", db)
      else
        (.redirect "cd_add_results" "cd-added",
         { db with cds := db.cds ++
             [⟨id, title, series_name, orderVal, issued_date⟩] })

/-- Embeds `song_add_execute` (POST `/song-add`).  Checks, in source
order: integer coercion of `id`; duplicate-id lookup; control characters
in `title`; then one INSERT. -/
def song_add_execute (db : DB) (id_str title : String) : HResult × DB :=
  match pyInt id_str with
  | none => (.redirect "song_add_results" "id-has-invalid-charactor", db)
  | some id =>
    if db.songs.any (fun r => r.id == id) then
      (.redirect "song_add_results" "id-already-exists", db)
    else if has_control_character title then
      (.redirect "song_add_results" "include-control-charactor", db)
    else
      (.redirect "song_add_results" "song-added",
       { db with songs := db.songs ++ [⟨id, title⟩] })

/-- Embeds `artist_add_execute` (POST `/artist-add`).  Checks, in source
order: integer coercion of `id` (only when non-empty); control characters
in `name`; control characters in `group_name` (this failure redirects to
`cd_add_results`, as in the source); then one INSERT.  There is no
duplicate-id pre-check: a duplicate id violates the `artists.id`
uniqueness constraint and yields `database-error`; a blank id cannot be
stored in the INTEGER primary-key column and also yields
`database-error`. -/
def artist_add_execute (db : DB) (id_str name group_name : String) :
    HResult × DB :=
  let idOk : Bool := id_str == "" || (pyInt id_str).isSome
  if !idOk then
    (.redirect "artist_add_results" "id-has-invalid-charactor", db)
  else if has_control_character name then
    (.redirect "artist_add_results" "include-control-charactor", db)
  else if has_control_character group_name then
    (.redirect "cd_add_results" "include-control-charactor", db)
  else
    match pyInt id_str with
    | none =>
      -- blank id: INSERT of '' into the INTEGER primary key fails
      (.redirect "artist_add_results" "database-error", db)
    | some id =>
      if db.artists.any (fun r => r.id == id) then
        (.redirect "artist_add_results" "database-error", db)
      else
        (.redirect "artist_add_results" "artist-added",
         { db with artists := db.artists ++ [⟨id, name, group_name⟩] })

/-- Embeds `concert_add_execute` (POST `/concert-add`).  Checks, in source
order: integer coercion of `id`; duplicate-id lookup; control characters
in `title`; control characters in `held_date`; then one INSERT. -/
def concert_add_execute (db : DB) (id_str title held_date : String) :
    HResult × DB :=
  match pyInt id_str with
  | none => (.redirect "concert_add_results" "id-has-invalid-charactor", db)
  | some id =>
    if db.concerts.any (fun r => r.id == id) then
      (.redirect "concert_add_results" "id-already-exists", db)
    else if has_control_character title then
      (.redirect "concert_add_results" "include-control-charactor", db)
    else if has_control_character held_date then
      (.redirect "concert_add_results" "include-control-charactor", db)
    else
      (.redirect "concert_add_results" "concert-added",
       { db with concerts := db.concerts ++ [⟨id, title, held_date⟩] })

/-- Embeds `cd_del_execute` (POST `/cd-del/<id>`).  The existence check in
the source is dead code: `except cd is None:` is an except *clause*, and
`cur.execute(...).fetchone()` returning `None` raises nothing, so the
`id-does-not-exist` branch can never run.  The handler then deletes from
`tracks_artists`, `tracks`, `cds` (grandchild, child, target, in that
order) in one try with a single commit after all three; `failAt` says
whether some statement raises `sqlite3.Error` (e.g. an I/O failure), in
which case the handler redirects without committing and the rollback at
teardown leaves the durable state unchanged. -/
def cd_del_execute (db : DB) (id : String) (failAt : Option (Fin 3)) :
    HResult × DB :=
  match failAt with
  | some _ => (.redirect "cd_del_results" "database-error", db)
  | none =>
    let db1 := { db with
        tracks_artists := db.tracks_artists.filter (fun r => !(r.cd_id == id)) }
    let db2 := { db1 with
        tracks := db1.tracks.filter (fun r => !(r.cd_id == id)) }
    let db3 := { db2 with
        cds := db2.cds.filter (fun r => !(r.id == id)) }
    (.redirect "cd_del_results" "deleted", db3)

/-- Embeds `concert_del_execute` (POST `/concert-del/<id>`).  The handler
first runs `id = int(id)` outside any try: a non-numeric URL id raises an
uncaught `ValueError`.  The existence check is dead code as in
`cd_del_execute`.  The three deletes (`artists_performances`,
`performances`, `concerts`) share one try and one commit; `failAt` as in
`cd_del_execute`. -/
def concert_del_execute (db : DB) (id : String) (failAt : Option (Fin 3)) :
    HResult × DB :=
  match pyInt id with
  | none => (.pyError "ValueError", db)
  | some n =>
    match failAt with
    | some _ => (.redirect "concert_del_results" "database-error", db)
    | none =>
      let db1 := { db with
          artists_performances :=
            db.artists_performances.filter (fun r => !(r.concert_id == n)) }
      let db2 := { db1 with
          performances := db1.performances.filter (fun r => !(r.concert_id == n)) }
      let db3 := { db2 with
          concerts := db2.concerts.filter (fun r => !(r.id == n)) }
      (.redirect "concert_del_results" "deleted", db3)

/-- Embeds `song_del` (GET `/song-del/<id>`), the delete-confirmation
page.  It runs `id = int(id)` outside any try, so a non-numeric URL id
raises an uncaught `ValueError`; otherwise it renders the confirmation
page (its existence check is dead code, as in `cd_del_execute`). -/
def song_del (db : DB) (id : String) : HResult × DB :=
  match pyInt id with
  | none => (.pyError "ValueError", db)
  | some _ => (.page "song-del.html", db)

/-- Embeds `song_del_execute` (POST `/song-del/<id>`).  The existence
check is dead code (see `cd_del_execute`); the single DELETE on `songs`
raises `sqlite3.IntegrityError` when a deleted row is still referenced by
`tracks.song_id` or `performances.song_id` (foreign keys are ON), which is
caught and reported as `database-error` without committing. -/
def song_del_execute (db : DB) (id : String) : HResult × DB :=
  let victims := db.songs.filter (fun r => strMatchesInt id r.id)
  let referenced := victims.any (fun s =>
    db.tracks.any (fun t => t.song_id == s.id) ||
    db.performances.any (fun p => p.song_id == s.id))
  if referenced then
    (.redirect "song_del_results" "database-error", db)
  else
    (.redirect "song_del_results" "deleted",
     { db with songs := db.songs.filter (fun r => !(strMatchesInt id r.id)) })

/-- Embeds `artist_del_execute` (POST `/artist-del/<id>`).  As in
`song_del_execute`, the existence check is dead code and no cascade is
attempted: the single DELETE on `artists` raises
`sqlite3.IntegrityError` when a deleted row is still referenced by
`tracks_artists.artist_id` or `artists_performances.artist_id`; the
handler then redirects — to `artist_add_results`, as in the source — with
`database-error` and does not commit. -/
def artist_del_execute (db : DB) (id : String) : HResult × DB :=
  let victims := db.artists.filter (fun r => strMatchesInt id r.id)
  let referenced := victims.any (fun a =>
    db.tracks_artists.any (fun t => t.artist_id == a.id) ||
    db.artists_performances.any (fun p => p.artist_id == a.id))
  if referenced then
    (.redirect "artist_add_results" "database-error", db)
  else
    (.redirect "artist_del_results" "deleted",
     { db with
         artists := db.artists.filter (fun r => !(strMatchesInt id r.id)) })

/-- Embeds `cd_edit_update` (POST `/cd-edit/<id>`).  Looks the CD up by
primary key (`id-does-not-exist` when absent); the three control-character
failures redirect to `song_edit_results` — not `cd_edit_results` — as in
the source; a non-empty `order_in_series` that fails integer coercion
renders `cd-edit-results.html` directly; the UPDATE stores the parsed
integer, or SQL NULL when the field arrived blank, and commits. -/
def cd_edit_update (db : DB)
    (id title series_name order_in_series_str issued_date : String) :
    HResult × DB :=
  match db.cds.find? (fun r => r.id == id) with
  | none => (.redirect "cd_edit_results" "id-does-not-exist", db)
  | some _ =>
    if has_control_character title then
      (.redirect "song_edit_results" "include-control-charactor", db)
    else if has_control_character series_name then
      (.redirect "song_edit_results" "include-control-charactor", db)
    else if has_control_character issued_date then
      (.redirect "song_edit_results" "include-control-charactor", db)
    else
      let doUpdate := fun (v : SqlVal) =>
        { db with cds := db.cds.map (fun r =>
            if r.id == id then
              { r with title := title, series_name := series_name,
                       order_in_series := v, issued_date := issued_date }
            else r) }
      if order_in_series_str = "" then
        (.redirect "cd_edit_results" "updated", doUpdate .nullV)
      else
        match pyInt order_in_series_str with
        | none =>
          (.render "cd-edit-results.html"
             "シリーズ通し番号は数値で指定してください", db)
        | some v =>
          (.redirect "cd_edit_results" "updated", doUpdate (.intV v))

/-- Embeds `tracks_edit_update` (POST `/tracks-edit/<id>`).  Parses
`track_number`, `song_id`, `new_song_id`, `artist_id` in one try; honours
the `delete` sentinel in `new_artist_id` (deleting the association row and
committing at once); parses `new_artist_id`; short-circuits with
`unchanged` when both the song and the artist are unchanged; otherwise
updates `tracks.song_id` and/or `tracks_artists.artist_id` and commits
once at the end — an `sqlite3.Error` on either UPDATE (a foreign-key
violation when the new song or artist does not exist, or a primary-key
collision when the new artist is already on that track) redirects with
`database-error` before the commit, so the durable state is unchanged. -/
def tracks_edit_update (db : DB) (id : String)
    (track_number_str song_id_str new_song_id_str artist_id_str
     new_artist_id_str : String) : HResult × DB :=
  match pyInt track_number_str, pyInt song_id_str, pyInt new_song_id_str,
      pyInt artist_id_str with
  | some track_number, some _song_id, some new_song_id, some artist_id =>
    let song_id := _song_id
    if new_artist_id_str = "delete" then
      (.redirect "tracks_edit_results" "updated",
       { db with tracks_artists := db.tracks_artists.filter (fun r =>
           !(r.cd_id == id && r.track_number == track_number &&
             r.artist_id == artist_id)) })
    else
      match pyInt new_artist_id_str with
      | none => (.redirect "tracks_edit_results" "include-invalid-charactor", db)
      | some new_artist_id =>
        if song_id == new_song_id && artist_id == new_artist_id then
          (.redirect "tracks_edit_results" "unchanged", db)
        else
          let trackHit := db.tracks.any (fun t =>
            t.cd_id == id && t.track_number == track_number)
          if song_id != new_song_id && trackHit &&
              !(db.songs.any (fun s => s.id == new_song_id)) then
            (.redirect "tracks_edit_results" "database-error", db)
          else
            let db1 :=
              if song_id != new_song_id then
                { db with tracks := db.tracks.map (fun t =>
                    if t.cd_id == id && t.track_number == track_number then
                      { t with song_id := new_song_id }
                    else t) }
              else db
            let taHit := db1.tracks_artists.any (fun r =>
              r.cd_id == id && r.track_number == track_number &&
              r.artist_id == artist_id)
            if artist_id != new_artist_id && taHit &&
                (!(db1.artists.any (fun a => a.id == new_artist_id)) ||
                 db1.tracks_artists.any (fun r =>
                   r.cd_id == id && r.track_number == track_number &&
                   r.artist_id == new_artist_id)) then
              (.redirect "tracks_edit_results" "database-error", db)
            else
              let db2 :=
                if artist_id != new_artist_id then
                  { db1 with tracks_artists := db1.tracks_artists.map (fun r =>
                      if r.cd_id == id && r.track_number == track_number &&
                          r.artist_id == artist_id then
                        { r with artist_id := new_artist_id }
                      else r) }
                else db1
              (.redirect "tracks_edit_results" "updated", db2)
  | _, _, _, _ =>
    (.redirect "tracks_edit_results" "include-invalid-charactor", db)

/-- Embeds `setlist_edit_update` (POST `/setlist-edit/<id>`).  Same shape
as `tracks_edit_update`, on `performances` / `artists_performances`; the
URL `concert_id` stays a string and is compared with the INTEGER columns
through sqlite's type affinity. -/
def setlist_edit_update (db : DB) (id : String)
    (number_of_order_str new_song_id_str song_id_str new_artist_id_str
     artist_id_str : String) : HResult × DB :=
  match pyInt number_of_order_str, pyInt new_song_id_str, pyInt song_id_str,
      pyInt artist_id_str with
  | some number_of_order, some new_song_id, some song_id, some artist_id =>
    if new_artist_id_str = "delete" then
      (.redirect "setlist_edit_results" "updated",
       { db with
           artists_performances := db.artists_performances.filter (fun r =>
             !(strMatchesInt id r.concert_id &&
               r.order_in_concert == number_of_order &&
               r.artist_id == artist_id)) })
    else
      match pyInt new_artist_id_str with
      | none => (.redirect "setlist_edit_results" "include-invalid-charactor", db)
      | some new_artist_id =>
        if song_id == new_song_id && artist_id == new_artist_id then
          (.redirect "setlist_edit_results" "unchanged", db)
        else
          let perfHit := db.performances.any (fun p =>
            strMatchesInt id p.concert_id &&
            p.number_of_order == number_of_order)
          if song_id != new_song_id && perfHit &&
              !(db.songs.any (fun s => s.id == new_song_id)) then
            (.redirect "setlist_edit_results" "database-error", db)
          else
            let db1 :=
              if song_id != new_song_id then
                { db with performances := db.performances.map (fun p =>
                    if strMatchesInt id p.concert_id &&
                        p.number_of_order == number_of_order then
                      { p with song_id := new_song_id }
                    else p) }
              else db
            let apHit := db1.artists_performances.any (fun r =>
              strMatchesInt id r.concert_id &&
              r.order_in_concert == number_of_order &&
              r.artist_id == artist_id)
            if artist_id != new_artist_id && apHit &&
                (!(db1.artists.any (fun a => a.id == new_artist_id)) ||
                 db1.artists_performances.any (fun r =>
                   strMatchesInt id r.concert_id &&
                   r.order_in_concert == number_of_order &&
                   r.artist_id == new_artist_id)) then
              (.redirect "setlist_edit_results" "database-error", db)
            else
              let db2 :=
                if artist_id != new_artist_id then
                  { db1 with
                      artists_performances := db1.artists_performances.map (fun r =>
                        if strMatchesInt id r.concert_id &&
                            r.order_in_concert == number_of_order &&
                            r.artist_id == artist_id then
                          { r with artist_id := new_artist_id }
                        else r) }
                else db1
              (.redirect "setlist_edit_results" "updated", db2)
  | _, _, _, _ =>
    (.redirect "setlist_edit_results" "include-invalid-charactor", db)

/-- Embeds `track_artist_edit_update` (POST
`/track-artist-edit/<id>/<track_number>`).  When either integer coercion
fails, the except block runs `print(artist_id)` on a name that was never
bound, raising an uncaught `NameError`.  The duplicate-association and
database-error branches call `url_for('tracks_edit_results', ...)`
without the route's required `cd_id` parameter, raising an uncaught
`BuildError`.  Only the success path builds a valid redirect. -/
def track_artist_edit_update (db : DB) (id _track_number_url : String)
    (artist_id_str track_number_str : String) : HResult × DB :=
  match pyInt track_number_str, pyInt artist_id_str with
  | some track_number, some artist_id =>
    if db.tracks_artists.any (fun r =>
        r.cd_id == id && r.track_number == track_number &&
        r.artist_id == artist_id) then
      (.pyError "BuildError", db)
    else if db.tracks.any (fun t =>
          t.cd_id == id && t.track_number == track_number) &&
        db.artists.any (fun a => a.id == artist_id) then
      (.redirect "tracks_edit_results" "updated",
       { db with
           tracks_artists := db.tracks_artists ++ [⟨id, track_number, artist_id⟩] })
    else
      -- INSERT raises a foreign-key violation; the except branch's
      -- url_for lacks cd_id
      (.pyError "BuildError", db)
  | _, _ => (.pyError "NameError", db)

/-- The empty database. -/
def emptyDB : DB := ⟨[], [], [], [], [], [], [], []⟩

/-- A database holding exactly one CD, with id `100`. -/
def dbOneCD : DB :=
  { emptyDB with cds := [⟨"100", "Album A", "", .nullV, "2020-01-01"⟩] }

/-- A populated database: one CD with one track by one artist, and one
concert with one performance by the same artist. -/
def sampleDB : DB :=
  ⟨[⟨"100", "Album A", "", .nullV, "2020-01-01"⟩],
   [⟨1, "Song One"⟩],
   [⟨7, "Artist One", "Group One"⟩],
   [⟨3, "Concert One", "2021-05-05"⟩],
   [⟨"100", 1, 1⟩],
   [⟨"100", 1, 7⟩],
   [⟨3, 1, 1⟩],
   [⟨3, 1, 7⟩]⟩

/-- A one-character string holding a horizontal tab (Unicode category Cc). -/
def tabStr : String := String.mk [Char.ofNat 9]

/-- What `cd_del_execute` observably does on any database: every
statement failure yields `database-error` with the durable state
unchanged, and a failure-free run yields `deleted` with all three tiers
empty for that CD id. -/
def CdDelSpec (db : DB) (id : String) : Prop :=
  (∀ k : Fin 3, cd_del_execute db id (some k) =
      (.redirect "cd_del_results" "database-error", db)) ∧
  (cd_del_execute db id none).1 = .redirect "cd_del_results" "deleted" ∧
  ((cd_del_execute db id none).2.cds.filter (fun r => r.id == id)) = [] ∧
  ((cd_del_execute db id none).2.tracks.filter (fun r => r.cd_id == id)) = [] ∧
  ((cd_del_execute db id none).2.tracks_artists.filter
      (fun r => r.cd_id == id)) = []

/-- What `concert_del_execute` observably does when the URL id parses to
`n`: mirror image of `CdDelSpec` on the concert tables. -/
def ConcertDelSpec (db : DB) (idStr : String) (n : Int) : Prop :=
  (∀ k : Fin 3, concert_del_execute db idStr (some k) =
      (.redirect "concert_del_results" "database-error", db)) ∧
  (concert_del_execute db idStr none).1 =
      .redirect "concert_del_results" "deleted" ∧
  ((concert_del_execute db idStr none).2.concerts.filter
      (fun r => r.id == n)) = [] ∧
  ((concert_del_execute db idStr none).2.performances.filter
      (fun r => r.concert_id == n)) = [] ∧
  ((concert_del_execute db idStr none).2.artists_performances.filter
      (fun r => r.concert_id == n)) = []

theorem filter_neg_filter {α} (p : α → Bool) (l : List α) :
    (l.filter (fun a => !(p a))).filter p = [] := by
  induction l with
  | nil => rfl
  | cons h t ih =>
    by_cases hp : p h = true
    · simp [List.filter_cons, hp, ih]
    · simp [List.filter_cons, hp, ih]

theorem any_of_filter_length_one {α} {p : α → Bool} {l : List α}
    (h : (l.filter p).length = 1) : l.any p = true := by
  rcases hf : l.filter p with _ | ⟨x, xs⟩
  · rw [hf] at h; simp at h
  · have hx : x ∈ l.filter p := by rw [hf]; exact List.mem_cons_self x xs
    rcases List.mem_filter.mp hx with ⟨hmem, hpx⟩
    exact List.any_eq_true.mpr ⟨x, hmem, hpx⟩

/-- C2: deleting a CD (resp. Concert) deletes grandchild association
rows, then child rows, then the target row, as one atomic unit — on any
statement failure nothing becomes durable and the outcome is
`database-error`; after a successful delete all three tiers are empty for
that id. -/
theorem c2_cascade_delete_atomic (db : DB) (id idStr : String) (n : Int)
    (hc : pyInt idStr = some n) :
    CdDelSpec db id ∧ ConcertDelSpec db idStr n := by
  constructor
  · refine ⟨fun k => rfl, rfl, ?_, ?_, ?_⟩
    · exact filter_neg_filter (fun r => r.id == id) db.cds
    · exact filter_neg_filter (fun r => r.cd_id == id) db.tracks
    · exact filter_neg_filter (fun r => r.cd_id == id) db.tracks_artists
  · unfold ConcertDelSpec concert_del_execute
    rw [hc]
    refine ⟨fun k => rfl, rfl, ?_, ?_, ?_⟩
    · exact filter_neg_filter (fun r => r.id == n) db.concerts
    · exact filter_neg_filter (fun r => r.concert_id == n) db.performances
    · exact filter_neg_filter (fun r => r.concert_id == n)
        db.artists_performances

/-- Witness for `c2_cascade_delete_atomic` at a concrete populated
database. -/
theorem c2_cascade_delete_atomic_witness :
    pyInt "3" = some 3 ∧ (CdDelSpec sampleDB "100" ∧
      ConcertDelSpec sampleDB "3" 3) :=
  ⟨by decide, c2_cascade_delete_atomic sampleDB "100" "3" 3 (by decide)⟩

/-- C3 (code bug): `cd_del_execute` on an id that matches no `cds` row
does not report `id-does-not-exist`: the `except cd is None:` existence
check is dead code, so the handler runs the cascade (deleting nothing),
commits, and reports `deleted`. -/
theorem c3_delete_missing_id_reports_deleted :
    (dbOneCD.cds.any (fun r => r.id == "999")) = false ∧
    cd_del_execute dbOneCD "999" none =
      (.redirect "cd_del_results" "deleted", dbOneCD) := by decide

/-- C7 (code bug): inputs on which a route handler lets a Python
exception escape to the framework's generic error page: `song_del` and
`concert_del_execute` run `int(id)` outside any try and raise `ValueError`
on a non-numeric id, and `track_artist_edit_update`'s integer-coercion
except block raises `NameError` by printing the never-bound `artist_id`. -/
theorem c7_unhandled_exception_inputs :
    song_del emptyDB "abc" = (.pyError "ValueError", emptyDB) ∧
    concert_del_execute emptyDB "abc" none = (.pyError "ValueError", emptyDB) ∧
    track_artist_edit_update emptyDB "100" "1" "xyz" "1" =
      (.pyError "NameError", emptyDB) := by decide

/-- C1 (counterexample): adding a CD whose id already exists fails with
`database-error`, not `id-already-exists` — `cd_add_execute` has no
duplicate-id pre-check and the INSERT's constraint violation is reported
as a database error.  The table still holds exactly one row for the id. -/
theorem c1_counterexample :
    (dbOneCD.cds.filter (fun r => r.id == "100")).length = 1 ∧
    cd_add_execute dbOneCD "Album B" "100" "" "" "2021-01-01" =
      (.redirect "cd_add_results" "database-error", dbOneCD) := by decide

/-- C4 (counterexample): `song_add_execute` does not run the per-field
control-character checks first: with a non-numeric id and a title
containing a control character, the numeric-coercion outcome
`id-has-invalid-charactor` is reported, so the offending title field did
not short-circuit the request. -/
theorem c4_counterexample :
    has_control_character tabStr = true ∧
    song_add_execute emptyDB "abc" tabStr =
      (.redirect "song_add_results" "id-has-invalid-charactor", emptyDB) := by
  decide

/-- C1 (amended): adds of a Song or Concert whose id already exists fail
with `id-already-exists`; adds of a CD or Artist have no duplicate-id
pre-check, so when every validation passes the INSERT violates the unique
id constraint and the operation fails with `database-error`.  In every
case nothing is committed, so the table still contains exactly one row
for that id. -/
theorem c1_duplicate_id_outcomes (db : DB)
    (idStr cdid title name group seriesName orderStr issuedDate
     heldDate : String) (n : Int) :
    (pyInt idStr = some n →
      (db.songs.filter (fun r => r.id == n)).length = 1 →
      song_add_execute db idStr title =
        (.redirect "song_add_results" "id-already-exists", db)) ∧
    (pyInt idStr = some n →
      (db.concerts.filter (fun r => r.id == n)).length = 1 →
      concert_add_execute db idStr title heldDate =
        (.redirect "concert_add_results" "id-already-exists", db)) ∧
    ((db.cds.filter (fun r => r.id == cdid)).length = 1 →
      has_control_character title = false →
      has_control_character cdid = false →
      (seriesName = "" ∨ has_control_character seriesName = false) →
      (orderStr = "" ∨ (pyInt orderStr).isSome) →
      has_control_character issuedDate = false →
      cd_add_execute db title cdid seriesName orderStr issuedDate =
        (.redirect "cd_add_results" "database-error", db)) ∧
    (pyInt idStr = some n →
      (db.artists.filter (fun r => r.id == n)).length = 1 →
      has_control_character name = false →
      has_control_character group = false →
      artist_add_execute db idStr name group =
        (.redirect "artist_add_results" "database-error", db)) := by
  refine ⟨?_, ?_, ?_, ?_⟩
  · intro hid hlen
    unfold song_add_execute
    rw [hid]
    simp [any_of_filter_length_one hlen]
  · intro hid hlen
    unfold concert_add_execute
    rw [hid]
    simp [any_of_filter_length_one hlen]
  · intro hlen hccT hccI hser hord hccD
    unfold cd_add_execute
    rw [hccT, hccI]
    have hserF : (seriesName ≠ "" && has_control_character seriesName) = false := by
      rcases hser with h | h <;> simp [h]
    rw [hserF]
    simp only [Bool.false_eq_true, if_false]
    have hordV : (if orderStr = "" then some (SqlVal.strV "")
        else (pyInt orderStr).map SqlVal.intV).isSome = true := by
      rcases hord with h | h
      · simp [h]
      · rcases Option.isSome_iff_exists.mp h with ⟨v, hv⟩
        by_cases he : orderStr = "" <;> simp [he, hv]
    rcases Option.isSome_iff_exists.mp hordV with ⟨ov, hov⟩
    rw [hov]
    simp [hccD, any_of_filter_length_one hlen]
  · intro hid hlen hccN hccG
    unfold artist_add_execute
    rw [hid]
    simp [hccN, hccG, any_of_filter_length_one hlen]

/-- Witness for `c1_duplicate_id_outcomes` at concrete duplicate ids. -/
theorem c1_duplicate_id_outcomes_witness :
    (pyInt "1" = some 1 ∧
      (sampleDB.songs.filter (fun r => r.id == 1)).length = 1 ∧
      (sampleDB.cds.filter (fun r => r.id == "100")).length = 1 ∧
      has_control_character "Album B" = false) ∧
    song_add_execute sampleDB "1" "Song Two" =
      (.redirect "song_add_results" "id-already-exists", sampleDB) ∧
    cd_add_execute sampleDB "Album B" "100" "" "" "2021-01-01" =
      (.redirect "cd_add_results" "database-error", sampleDB) ∧
    artist_add_execute sampleDB "7" "Artist Two" "Group Two" =
      (.redirect "artist_add_results" "database-error", sampleDB) :=
  ⟨by decide,
   (c1_duplicate_id_outcomes sampleDB "1" "100" "Song Two" "Artist Two"
     "Group Two" "" "" "2021-01-01" "" 1).1 (by decide) (by decide),
   (c1_duplicate_id_outcomes sampleDB "1" "100" "Album B" "Artist Two"
     "Group Two" "" "" "2021-01-01" "" 1).2.2.1 (by decide) (by decide)
     (by decide) (Or.inl rfl) (Or.inl rfl) (by decide),
   (c1_duplicate_id_outcomes sampleDB "7" "100" "Album B" "Artist Two"
     "Group Two" "" "" "2021-01-01" "" 7).2.2.2 (by decide) (by decide)
     (by decide) (by decide)⟩

/-- C4 (amended): the actual validation order of the add handlers.
`song_add_execute` and `concert_add_execute` coerce the id first (a
non-numeric id is reported even when a text field carries a control
character), then do the duplicate-id lookup, then the control-character
checks (`title`, and for concerts then `held_date`), then one insert.
`cd_add_execute` checks control characters in `title`, `id` and a
non-blank `series_name`, in that order and before any coercion (a control
character there is reported even when `order_in_series` is non-numeric),
then coerces `order_in_series` (a non-numeric value is reported even when
`issued_date` carries a control character), then checks `issued_date`,
then runs one insert with no uniqueness pre-check. -/
theorem c4_validation_order (db : DB)
    (idStr title cdid seriesName orderStr issuedDate heldDate : String)
    (n : Int) :
    (pyInt idStr = none →
      song_add_execute db idStr title =
        (.redirect "song_add_results" "id-has-invalid-charactor", db)) ∧
    (pyInt idStr = some n → db.songs.any (fun r => r.id == n) = true →
      song_add_execute db idStr title =
        (.redirect "song_add_results" "id-already-exists", db)) ∧
    (pyInt idStr = some n → db.songs.any (fun r => r.id == n) = false →
      has_control_character title = true →
      song_add_execute db idStr title =
        (.redirect "song_add_results" "include-control-charactor", db)) ∧
    (pyInt idStr = some n → db.songs.any (fun r => r.id == n) = false →
      has_control_character title = false →
      song_add_execute db idStr title =
        (.redirect "song_add_results" "song-added",
         { db with songs := db.songs ++ [⟨n, title⟩] })) ∧
    (pyInt idStr = none →
      concert_add_execute db idStr title heldDate =
        (.redirect "concert_add_results" "id-has-invalid-charactor", db)) ∧
    (pyInt idStr = some n → db.concerts.any (fun r => r.id == n) = true →
      concert_add_execute db idStr title heldDate =
        (.redirect "concert_add_results" "id-already-exists", db)) ∧
    (pyInt idStr = some n → db.concerts.any (fun r => r.id == n) = false →
      has_control_character title = true →
      concert_add_execute db idStr title heldDate =
        (.redirect "concert_add_results" "include-control-charactor", db)) ∧
    (pyInt idStr = some n → db.concerts.any (fun r => r.id == n) = false →
      has_control_character title = false →
      has_control_character heldDate = true →
      concert_add_execute db idStr title heldDate =
        (.redirect "concert_add_results" "include-control-charactor", db)) ∧
    (pyInt idStr = some n → db.concerts.any (fun r => r.id == n) = false →
      has_control_character title = false →
      has_control_character heldDate = false →
      concert_add_execute db idStr title heldDate =
        (.redirect "concert_add_results" "concert-added",
         { db with concerts := db.concerts ++ [⟨n, title, heldDate⟩] })) ∧
    (has_control_character title = true →
      cd_add_execute db title cdid seriesName orderStr issuedDate =
        (.redirect "cd_add_results" "include-control-charactor", db)) ∧
    (has_control_character title = false →
      has_control_character cdid = true →
      cd_add_execute db title cdid seriesName orderStr issuedDate =
        (.redirect "cd_add_results" "include-control-charactor", db)) ∧
    (has_control_character title = false →
      has_control_character cdid = false →
      seriesName ≠ "" → has_control_character seriesName = true →
      cd_add_execute db title cdid seriesName orderStr issuedDate =
        (.redirect "cd_add_results" "include-control-charactor", db)) ∧
    (has_control_character title = false →
      has_control_character cdid = false →
      (seriesName = "" ∨ has_control_character seriesName = false) →
      orderStr ≠ "" → pyInt orderStr = none →
      cd_add_execute db title cdid seriesName orderStr issuedDate =
        (.redirect "cd_add_results" "series-number-has-invalid-charactor",
         db)) := by
  refine ⟨?_, ?_, ?_, ?_, ?_, ?_, ?_, ?_, ?_, ?_, ?_, ?_, ?_⟩
  · intro hid
    unfold song_add_execute
    rw [hid]
  · intro hid hdup
    unfold song_add_execute
    rw [hid]
    simp [hdup]
  · intro hid hdup hcc
    unfold song_add_execute
    rw [hid]
    simp [hdup, hcc]
  · intro hid hdup hcc
    unfold song_add_execute
    rw [hid]
    simp [hdup, hcc]
  · intro hid
    unfold concert_add_execute
    rw [hid]
  · intro hid hdup
    unfold concert_add_execute
    rw [hid]
    simp [hdup]
  · intro hid hdup hccT
    unfold concert_add_execute
    rw [hid]
    simp [hdup, hccT]
  · intro hid hdup hccT hccH
    unfold concert_add_execute
    rw [hid]
    simp [hdup, hccT, hccH]
  · intro hid hdup hccT hccH
    unfold concert_add_execute
    rw [hid]
    simp [hdup, hccT, hccH]
  · intro hccT
    unfold cd_add_execute
    rw [hccT]
    simp
  · intro hccT hccI
    unfold cd_add_execute
    rw [hccT, hccI]
    simp
  · intro hccT hccI hne hccS
    unfold cd_add_execute
    rw [hccT, hccI]
    simp [hne, hccS]
  · intro hccT hccI hser hne hord
    unfold cd_add_execute
    rw [hccT, hccI]
    have hserF : (seriesName ≠ "" && has_control_character seriesName) = false := by
      rcases hser with h | h <;> simp [h]
    rw [hserF]
    simp [hne, hord]

/-- Witness for `c4_validation_order` at concrete inputs, including the
order-revealing ones: a non-numeric song or concert id with a control
character in the title, a control character in a CD title together with a
non-numeric `order_in_series`, and a non-numeric `order_in_series`
together with a control character in `issued_date`. -/
theorem c4_validation_order_witness :
    (pyInt "abc" = none ∧ pyInt "50" = some 50 ∧
      has_control_character tabStr = true ∧
      sampleDB.concerts.any (fun r => r.id == 3) = true) ∧
    song_add_execute emptyDB "abc" tabStr =
      (.redirect "song_add_results" "id-has-invalid-charactor", emptyDB) ∧
    song_add_execute emptyDB "9" "New Song" =
      (.redirect "song_add_results" "song-added",
       { emptyDB with songs := emptyDB.songs ++ [⟨9, "New Song"⟩] }) ∧
    concert_add_execute emptyDB "abc" tabStr "2022-03-03" =
      (.redirect "concert_add_results" "id-has-invalid-charactor", emptyDB) ∧
    concert_add_execute sampleDB "3" "Concert Two" "2022-03-03" =
      (.redirect "concert_add_results" "id-already-exists", sampleDB) ∧
    concert_add_execute emptyDB "50" "New Concert" "2022-03-03" =
      (.redirect "concert_add_results" "concert-added",
       { emptyDB with concerts :=
           emptyDB.concerts ++ [⟨50, "New Concert", "2022-03-03"⟩] }) ∧
    cd_add_execute emptyDB tabStr "101" "" "xyz" "2020-01-01" =
      (.redirect "cd_add_results" "include-control-charactor", emptyDB) ∧
    cd_add_execute emptyDB "Album C" "101" "" "xyz" tabStr =
      (.redirect "cd_add_results" "series-number-has-invalid-charactor",
       emptyDB) :=
  ⟨by decide,
   (c4_validation_order emptyDB "abc" tabStr "101" "" "xyz" tabStr "" 0).1
     (by decide),
   (c4_validation_order emptyDB "9" "New Song" "101" "" "xyz" tabStr ""
     9).2.2.2.1 (by decide) (by decide) (by decide),
   (c4_validation_order emptyDB "abc" tabStr "101" "" "xyz" tabStr
     "2022-03-03" 0).2.2.2.2.1 (by decide),
   (c4_validation_order sampleDB "3" "Concert Two" "101" "" "xyz" tabStr
     "2022-03-03" 3).2.2.2.2.2.1 (by decide) (by decide),
   (c4_validation_order emptyDB "50" "New Concert" "101" "" "xyz" tabStr
     "2022-03-03" 50).2.2.2.2.2.2.2.2.1 (by decide) (by decide) (by decide)
     (by decide),
   (c4_validation_order emptyDB "abc" tabStr "101" "" "xyz" "2020-01-01"
     "" 0).2.2.2.2.2.2.2.2.2.1 (by decide),
   (c4_validation_order emptyDB "abc" "Album C" "101" "" "xyz" tabStr
     "" 0).2.2.2.2.2.2.2.2.2.2.2.2 (by decide) (by decide) (Or.inl rfl)
     (by decide) (by decide)⟩

theorem updated_rows_order (l : List CDRow) (id title series issued : String)
    (v : SqlVal) :
    ∀ r ∈ l.map (fun r =>
      if r.id == id then
        { r with title := title, series_name := series,
                 order_in_series := v, issued_date := issued }
      else r), (r.id == id) = true → r.order_in_series = v := by
  intro r hr hid
  rcases List.mem_map.mp hr with ⟨r0, _hr0, rfl⟩
  by_cases h0 : (r0.id == id) = true
  · rw [if_pos h0]
  · rw [if_neg h0] at hid
    exact absurd hid h0

/-- C5: editing a CD with a blank `order_in_series` stores SQL NULL in
that column (not zero and not the previous value, whatever it was), and a
non-blank numeric value stores the parsed integer. -/
theorem c5_blank_order_stores_null (db : DB)
    (id title series issued orderStr : String) (v : Int)
    (hex : (db.cds.find? (fun r => r.id == id)).isSome = true)
    (hccT : has_control_character title = false)
    (hccS : has_control_character series = false)
    (hccD : has_control_character issued = false) :
    ((cd_edit_update db id title series "" issued).1 =
        .redirect "cd_edit_results" "updated" ∧
      ∀ r ∈ (cd_edit_update db id title series "" issued).2.cds,
        (r.id == id) = true → r.order_in_series = SqlVal.nullV) ∧
    (pyInt orderStr = some v →
      (cd_edit_update db id title series orderStr issued).1 =
        .redirect "cd_edit_results" "updated" ∧
      ∀ r ∈ (cd_edit_update db id title series orderStr issued).2.cds,
        (r.id == id) = true → r.order_in_series = SqlVal.intV v) := by
  rcases Option.isSome_iff_exists.mp hex with ⟨c, hc⟩
  constructor
  · unfold cd_edit_update
    rw [hc]
    simp only [hccT, hccS, hccD, Bool.false_eq_true, if_false, if_pos rfl]
    exact ⟨rfl, updated_rows_order db.cds id title series issued .nullV⟩
  · intro hord
    have hne : ¬(orderStr = "") := by
      intro h
      rw [h, show pyInt "" = none from by decide] at hord
      exact Option.noConfusion hord
    unfold cd_edit_update
    rw [hc]
    simp only [hccT, hccS, hccD, Bool.false_eq_true, if_false, if_neg hne]
    rw [hord]
    exact ⟨rfl, updated_rows_order db.cds id title series issued (.intV v)⟩

/-- Witness for `c5_blank_order_stores_null` on the one-CD database. -/
theorem c5_blank_order_stores_null_witness :
    ((dbOneCD.cds.find? (fun r => r.id == "100")).isSome = true ∧
      pyInt "5" = some 5) ∧
    (((cd_edit_update dbOneCD "100" "Title" "Series" "" "2022").1 =
        .redirect "cd_edit_results" "updated" ∧
      ∀ r ∈ (cd_edit_update dbOneCD "100" "Title" "Series" "" "2022").2.cds,
        (r.id == "100") = true → r.order_in_series = SqlVal.nullV) ∧
    (pyInt "5" = some 5 →
      (cd_edit_update dbOneCD "100" "Title" "Series" "5" "2022").1 =
        .redirect "cd_edit_results" "updated" ∧
      ∀ r ∈ (cd_edit_update dbOneCD "100" "Title" "Series" "5" "2022").2.cds,
        (r.id == "100") = true → r.order_in_series = SqlVal.intV 5)) :=
  ⟨by decide,
   c5_blank_order_stores_null dbOneCD "100" "Title" "Series" "2022" "5" 5
     (by decide) (by decide) (by decide) (by decide)⟩

/-- C6: when the submitted new song id equals the prior song id and the
submitted new artist id equals the prior artist id, the track and setlist
association edit handlers report `unchanged` and write nothing. -/
theorem c6_unchanged_no_write (db : DB) (cdid concid : String)
    (tns ss nss as nas nos : String) (tn s a no : Int)
    (h1 : pyInt tns = some tn) (h2 : pyInt ss = some s)
    (h3 : pyInt nss = some s) (h4 : pyInt as = some a)
    (h5 : pyInt nas = some a) (h6 : pyInt nos = some no) :
    tracks_edit_update db cdid tns ss nss as nas =
      (.redirect "tracks_edit_results" "unchanged", db) ∧
    setlist_edit_update db concid nos nss ss nas as =
      (.redirect "setlist_edit_results" "unchanged", db) := by
  have hd : ¬(nas = "delete") := by
    intro h
    rw [h, show pyInt "delete" = none from by decide] at h5
    exact Option.noConfusion h5
  constructor
  · unfold tracks_edit_update
    rw [h1, h2, h3, h4]
    simp only [if_neg hd]
    rw [h5]
    simp
  · unfold setlist_edit_update
    rw [h6, h3, h2, h4]
    simp only [if_neg hd]
    rw [h5]
    simp

/-- Witness for `c6_unchanged_no_write` on the populated database. -/
theorem c6_unchanged_no_write_witness :
    (pyInt "1" = some 1 ∧ pyInt "7" = some 7) ∧
    tracks_edit_update sampleDB "100" "1" "1" "1" "7" "7" =
      (.redirect "tracks_edit_results" "unchanged", sampleDB) ∧
    setlist_edit_update sampleDB "3" "1" "1" "1" "7" "7" =
      (.redirect "setlist_edit_results" "unchanged", sampleDB) :=
  ⟨by decide,
   c6_unchanged_no_write sampleDB "100" "3" "1" "1" "1" "7" "7" "1" 1 1 7 1
     (by decide) (by decide) (by decide) (by decide) (by decide) (by decide)⟩

theorem lookup_eq_some_of_mem {l : List (String × String)} {a b : String}
    (hnd : (l.map Prod.fst).Nodup) (hmem : (a, b) ∈ l) :
    l.lookup a = some b := by
  induction l with
  | nil => cases hmem
  | cons hd tl ih =>
    obtain ⟨k, v⟩ := hd
    rw [List.map_cons, List.nodup_cons] at hnd
    rcases List.mem_cons.mp hmem with heq | htl
    · rcases Prod.mk.injEq .. ▸ heq with ⟨rfl, rfl⟩
      simp [List.lookup]
    · have hane : ¬(a = k) := by
        intro h
        exact hnd.1 (h ▸ List.mem_map.mpr ⟨(a, b), htl, rfl⟩)
      have : (a == k) = false := beq_eq_false_iff_ne.mpr hane
      simp [List.lookup, this, ih hnd.2 htl]

theorem lookup_eq_none_of_not_mem {l : List (String × String)} {a : String}
    (h : a ∉ l.map Prod.fst) : l.lookup a = none := by
  induction l with
  | nil => rfl
  | cons hd tl ih =>
    obtain ⟨k, v⟩ := hd
    have h1 : ¬(a = k) := by
      intro he
      exact h (by simp [he])
    have h2 : a ∉ tl.map Prod.fst := fun hm => h (by simp [hm])
    have : (a == k) = false := beq_eq_false_iff_ne.mpr h1
    simp [List.lookup, this, ih h2]

/-- C8: every modelled results route resolves its code through the static
catalog: a code present in `RESULT_MESSAGES` renders its mapped message,
and an unrecognized code renders the generic `code error` string. -/
theorem c8_results_catalog (code m : String) :
    ((code, m) ∈ RESULT_MESSAGES →
      cd_add_results code = .render "cd-add-results.html" m ∧
      cd_del_results code = .render "cd-del-results.html" m ∧
      cd_edit_results code = .render "cd-edit-results.html" m ∧
      song_add_results code = .render "song-add-results.html" m ∧
      song_del_results code = .render "song-del-results.html" m ∧
      song_edit_results code = .render "song-edit-results.html" m ∧
      artist_add_results code = .render "artist-add-results.html" m ∧
      concert_add_results code = .render "concert-add-results.html" m ∧
      concert_del_results code = .render "concert-del-results.html" m ∧
      setlist_edit_results code = .render "setlist-edit-results.html" m) ∧
    (code ∉ RESULT_MESSAGES.map Prod.fst →
      cd_add_results code = .render "cd-add-results.html" "code error" ∧
      cd_del_results code = .render "cd-del-results.html" "code error" ∧
      cd_edit_results code = .render "cd-edit-results.html" "code error" ∧
      song_add_results code = .render "song-add-results.html" "code error" ∧
      song_del_results code = .render "song-del-results.html" "code error" ∧
      song_edit_results code = .render "song-edit-results.html" "code error" ∧
      artist_add_results code = .render "artist-add-results.html" "code error" ∧
      concert_add_results code =
        .render "concert-add-results.html" "code error" ∧
      concert_del_results code =
        .render "concert-del-results.html" "code error" ∧
      setlist_edit_results code =
        .render "setlist-edit-results.html" "code error") := by
  constructor
  · intro hmem
    have hnd : (RESULT_MESSAGES.map Prod.fst).Nodup := by decide
    have hm : resultsMessage code = m := by
      unfold resultsMessage
      rw [lookup_eq_some_of_mem hnd hmem]
      rfl
    unfold cd_add_results cd_del_results cd_edit_results song_add_results
      song_del_results song_edit_results artist_add_results
      concert_add_results concert_del_results setlist_edit_results
    rw [hm]
    exact ⟨rfl, rfl, rfl, rfl, rfl, rfl, rfl, rfl, rfl, rfl⟩
  · intro hnm
    have hm : resultsMessage code = "code error" := by
      unfold resultsMessage
      rw [lookup_eq_none_of_not_mem hnm]
      rfl
    unfold cd_add_results cd_del_results cd_edit_results song_add_results
      song_del_results song_edit_results artist_add_results
      concert_add_results concert_del_results setlist_edit_results
    rw [hm]
    exact ⟨rfl, rfl, rfl, rfl, rfl, rfl, rfl, rfl, rfl, rfl⟩

/-- Witness for `c8_results_catalog`: the `deleted` code renders its
catalog message; the unknown code `bogus` renders `code error`. -/
theorem c8_results_catalog_witness :
    (("deleted", "削除しました") ∈ RESULT_MESSAGES ∧
      "bogus" ∉ RESULT_MESSAGES.map Prod.fst) ∧
    cd_add_results "deleted" = .render "cd-add-results.html" "削除しました" ∧
    cd_add_results "bogus" = .render "cd-add-results.html" "code error" :=
  ⟨⟨by decide, by decide⟩,
   ((c8_results_catalog "deleted" "削除しました").1 (by decide)).1,
   ((c8_results_catalog "bogus" "削除しました").2 (by decide)).1⟩

/-- C9: deleting a Song (resp. Artist) that is still referenced by child
or association rows reports `database-error` and leaves the database
unchanged — no cascade is attempted and the enabled foreign keys reject
the DELETE. -/
theorem c9_referenced_delete_restricted (db : DB) (sidStr aidStr : String)
    (sn an : Int)
    (hs : pyInt sidStr = some sn) (ha : pyInt aidStr = some an)
    (hsEx : db.songs.any (fun r => r.id == sn) = true)
    (hsRef : (db.tracks.any (fun t => t.song_id == sn) ||
        db.performances.any (fun p => p.song_id == sn)) = true)
    (haEx : db.artists.any (fun r => r.id == an) = true)
    (haRef : (db.tracks_artists.any (fun t => t.artist_id == an) ||
        db.artists_performances.any (fun p => p.artist_id == an)) = true) :
    song_del_execute db sidStr =
      (.redirect "song_del_results" "database-error", db) ∧
    artist_del_execute db aidStr =
      (.redirect "artist_add_results" "database-error", db) := by
  constructor
  · obtain ⟨r, hrmem, hrid⟩ := List.any_eq_true.mp hsEx
    have hrid' : r.id = sn := by simpa using hrid
    have href : ((db.songs.filter (fun x => strMatchesInt sidStr x.id)).any
        (fun s => db.tracks.any (fun t => t.song_id == s.id) ||
          db.performances.any (fun p => p.song_id == s.id))) = true := by
      refine List.any_eq_true.mpr ⟨r, List.mem_filter.mpr ⟨hrmem, ?_⟩, ?_⟩
      · simp [strMatchesInt, hs, hrid']
      · rw [hrid']
        exact hsRef
    simp [song_del_execute, href]
  · obtain ⟨r, hrmem, hrid⟩ := List.any_eq_true.mp haEx
    have hrid' : r.id = an := by simpa using hrid
    have href : ((db.artists.filter (fun x => strMatchesInt aidStr x.id)).any
        (fun a => db.tracks_artists.any (fun t => t.artist_id == a.id) ||
          db.artists_performances.any (fun p => p.artist_id == a.id))) = true := by
      refine List.any_eq_true.mpr ⟨r, List.mem_filter.mpr ⟨hrmem, ?_⟩, ?_⟩
      · simp [strMatchesInt, ha, hrid']
      · rw [hrid']
        exact haRef
    simp [artist_del_execute, href]

/-- Witness for `c9_referenced_delete_restricted`: song 1 and artist 7 of
the populated database are referenced by a track and a performance. -/
theorem c9_referenced_delete_restricted_witness :
    (pyInt "1" = some 1 ∧ pyInt "7" = some 7 ∧
      sampleDB.tracks.any (fun t => t.song_id == 1) = true ∧
      sampleDB.tracks_artists.any (fun t => t.artist_id == 7) = true) ∧
    song_del_execute sampleDB "1" =
      (.redirect "song_del_results" "database-error", sampleDB) ∧
    artist_del_execute sampleDB "7" =
      (.redirect "artist_add_results" "database-error", sampleDB) :=
  ⟨by decide,
   c9_referenced_delete_restricted sampleDB "1" "7" 1 7 (by decide)
     (by decide) (by decide) (by decide) (by decide) (by decide)⟩

/-- C10: in the CD edit handler, a control character in the submitted
`title`, `series_name` or `issued_date` redirects to `song_edit_results`
— not to the CD edit results route — with code
`include-control-charactor`, and the database is unchanged. -/
theorem c10_cd_edit_control_char_redirect (db : DB)
    (id title series orderStr issued : String)
    (hex : (db.cds.find? (fun r => r.id == id)).isSome = true) :
    (has_control_character title = true →
      cd_edit_update db id title series orderStr issued =
        (.redirect "song_edit_results" "include-control-charactor", db)) ∧
    (has_control_character title = false →
      has_control_character series = true →
      cd_edit_update db id title series orderStr issued =
        (.redirect "song_edit_results" "include-control-charactor", db)) ∧
    (has_control_character title = false →
      has_control_character series = false →
      has_control_character issued = true →
      cd_edit_update db id title series orderStr issued =
        (.redirect "song_edit_results" "include-control-charactor", db)) := by
  rcases Option.isSome_iff_exists.mp hex with ⟨c, hc⟩
  refine ⟨?_, ?_, ?_⟩
  · intro h1
    unfold cd_edit_update
    rw [hc]
    simp [h1]
  · intro h1 h2
    unfold cd_edit_update
    rw [hc]
    simp [h1, h2]
  · intro h1 h2 h3
    unfold cd_edit_update
    rw [hc]
    simp [h1, h2, h3]

/-- Witness for `c10_cd_edit_control_char_redirect`: a tab character in
each of the three fields, on the one-CD database. -/
theorem c10_cd_edit_control_char_redirect_witness :
    ((dbOneCD.cds.find? (fun r => r.id == "100")).isSome = true ∧
      has_control_character tabStr = true) ∧
    cd_edit_update dbOneCD "100" tabStr "Series" "" "2022" =
      (.redirect "song_edit_results" "include-control-charactor", dbOneCD) ∧
    cd_edit_update dbOneCD "100" "Title" tabStr "" "2022" =
      (.redirect "song_edit_results" "include-control-charactor", dbOneCD) ∧
    cd_edit_update dbOneCD "100" "Title" "Series" "" tabStr =
      (.redirect "song_edit_results" "include-control-charactor", dbOneCD) :=
  ⟨by decide,
   (c10_cd_edit_control_char_redirect dbOneCD "100" tabStr "Series" "" "2022"
     (by decide)).1 (by decide),
   (c10_cd_edit_control_char_redirect dbOneCD "100" "Title" tabStr "" "2022"
     (by decide)).2.1 (by decide) (by decide),
   (c10_cd_edit_control_char_redirect dbOneCD "100" "Title" "Series" "" tabStr
     (by decide)).2.2 (by decide) (by decide) (by decide)⟩

end DbApp
